import Mathlib

/-!
Shallow embedding of the `LineLink` example adapter
(`docs/source/user/scripts/line_link.py`).

The adapter plugs a straight-line model `f(x) = A + B·x` into the external
PRISM emulation framework.  Numeric values are modelled as exact rationals
(`ℚ`); the parameter assignment (`par_set`, a Python dict) is modelled as an
association list with `Option`-valued lookup, so that a missing key
(`KeyError` in Python) is a `none` result, and `call_model`, whose body
performs two dict lookups, returns `Option (List ℚ)`.
-/

namespace LineLink

/-- Embedding of `call_model(self, emul_i, par_set, data_idx)`:
`vals = par_set['A'] + np.array(data_idx)*par_set['B']; return vals`.
The two dict subscripts become `Option` lookups; the numpy elementwise
expression becomes a `List.map` over the coordinates. -/
def call_model (emul_i : ℕ) (par_set : List (String × ℚ))
    (data_idx : List ℚ) : Option (List ℚ) := do
  let A ← par_set.lookup "A"
  let B ← par_set.lookup "B"
  return data_idx.map (fun x => A + x * B)

/-- Embedding of `np.ones_like`: a sequence of ones with the input's shape. -/
def ones_like (data_idx : List ℚ) : List ℚ :=
  data_idx.map (fun _ => 1)

/-- Embedding of `get_md_var(self, emul_i, par_set, data_idx)`:
`return 1e-4*np.ones_like(data_idx)`.  Neither `emul_i` nor `par_set`
occurs in the body. -/
def get_md_var (emul_i : ℕ) (par_set : List (String × ℚ))
    (data_idx : List ℚ) : List ℚ :=
  (ones_like data_idx).map (fun v => (1e-4 : ℚ) * v)

/-- Embedding of `get_default_model_parameters`: the fixed dict
`{'A': [-10, 10, 3], 'B': [0, 5, 1.5]}` as name → (lower, upper, estimate). -/
def get_default_model_parameters : List (String × (ℚ × ℚ × ℚ)) :=
  [("A", (-10, 10, 3)), ("B", (0, 5, 1.5))]

/-- Embedding of `get_default_model_data`: the fixed dict
`{1: [4.5, 0.1], 2.5: [6.8, 0.1], -2: [0, 0.1]}` as
coordinate → (observed value, uncertainty). -/
def get_default_model_data : List (ℚ × (ℚ × ℚ)) :=
  [(1, (4.5, 0.1)), (2.5, (6.8, 0.1)), (-2, (0, 0.1))]

/-- The bound/estimate invariant for one parameter triple
(lower, upper, estimate): lower ≤ estimate ≤ upper. -/
def par_triple_ok (t : ℚ × ℚ × ℚ) : Prop :=
  t.1 ≤ t.2.2 ∧ t.2.2 ≤ t.2.1

/-- The mutable environment visible to a method call: the adapter object's
own state (abstract, the adapter declares no attributes of its own) and the
two framework-supplied arguments. -/
structure ExecState (σ : Type) where
  self : σ
  par_set : List (String × ℚ)
  data_idx : List ℚ

/-- State-passing embedding of `call_model`: the body is the single
statement `vals = par_set['A'] + np.array(data_idx)*par_set['B']`
followed by `return(vals)`; it reads `par_set` and `data_idx` and binds
only the fresh local `vals`, writing to no field of the environment. -/
def call_model_exec {σ : Type} (emul_i : ℕ) (st : ExecState σ) :
    Option (List ℚ) × ExecState σ :=
  (call_model emul_i st.par_set st.data_idx, st)

/-- State-passing embedding of `get_md_var`: the body is the single
statement `return(1e-4*np.ones_like(data_idx))`, which reads `data_idx`
and writes to no field of the environment. -/
def get_md_var_exec {σ : Type} (emul_i : ℕ) (st : ExecState σ) :
    List ℚ × ExecState σ :=
  (get_md_var emul_i st.par_set st.data_idx, st)

/-- Embedding of `__init__(self, *args, **kwargs)`: the body is `pass`
followed by `super().__init__(*args, **kwargs)`.  The base class
`ModelLink` comes from the external `prism` package and is not part of
this repository, so its constructor is abstracted as an arbitrary
function `modelLink_init` from the argument tuple to the produced state. -/
def lineLink_init {Args State : Type} (modelLink_init : Args → State)
    (args : Args) : State :=
  modelLink_init args

end LineLink

namespace LineLink

/-- C1: for every coordinate sequence and every parameter assignment in
which the lookups of `'A'` and `'B'` yield numeric values `A` and `B`,
`call_model` returns exactly the sequence `A + B·x` elementwise, which has
one element per input coordinate. -/
theorem call_model_eval (emul_i : ℕ) (par_set : List (String × ℚ))
    (data_idx : List ℚ) (A B : ℚ)
    (hA : par_set.lookup "A" = some A) (hB : par_set.lookup "B" = some B) :
    call_model emul_i par_set data_idx =
      some (data_idx.map (fun x => A + B * x)) ∧
    (data_idx.map (fun x => A + B * x)).length = data_idx.length := by
  refine ⟨?_, by simp⟩
  simp only [call_model, hA, hB, Option.some_bind]
  refine congrArg some (List.map_congr_left fun x _ => ?_)
  ring

/-- Witness for C1 at `par_set = {'A': 3, 'B': 2}`, `data_idx = [1, 4]`. -/
theorem call_model_eval_witness :
    call_model 0 [("A", 3), ("B", 2)] [1, 4] =
      some ([(1 : ℚ), 4].map (fun x => 3 + 2 * x)) ∧
    ([(1 : ℚ), 4].map (fun x => 3 + 2 * x)).length = [(1 : ℚ), 4].length :=
  call_model_eval 0 [("A", 3), ("B", 2)] [1, 4] 3 2 (by rfl) (by rfl)

/-- C2: for every iteration index, parameter assignment and coordinate
sequence, `get_md_var` returns the coordinate sequence with every element
replaced by `1e-4`; in particular the output has the same length as the
input. -/
theorem get_md_var_const (emul_i : ℕ) (par_set : List (String × ℚ))
    (data_idx : List ℚ) :
    get_md_var emul_i par_set data_idx =
      data_idx.map (fun _ => (1e-4 : ℚ)) ∧
    (get_md_var emul_i par_set data_idx).length = data_idx.length := by
  constructor
  · simp only [get_md_var, ones_like, List.map_map]
    exact List.map_congr_left fun x _ => mul_one _
  · simp [get_md_var, ones_like]

/-- C3: on coordinates `[1, 2.5, -2]` with `A = 3`, `B = 1.5`, the model
evaluates to `[4.5, 6.75, 0]` and the discrepancy variance to
`[1e-4, 1e-4, 1e-4]`. -/
theorem example_scenario :
    call_model 1 [("A", 3), ("B", 1.5)] [1, 2.5, -2] =
      some [4.5, 6.75, 0] ∧
    get_md_var 1 [("A", 3), ("B", 1.5)] [1, 2.5, -2] =
      [1e-4, 1e-4, 1e-4] := by
  constructor
  · have hA : List.lookup "A" [("A", (3 : ℚ)), ("B", 1.5)] = some 3 := by rfl
    have hB : List.lookup "B" [("A", (3 : ℚ)), ("B", 1.5)] = some 1.5 := by
      rfl
    simp only [call_model, hA, hB, Option.some_bind, List.map]
    norm_num
  · simp only [get_md_var, ones_like, List.map]
    norm_num

/-- C4: the default parameter supply is exactly the two-entry mapping
`A ↦ (-10, 10, 3)`, `B ↦ (0, 5, 1.5)`, and each entry satisfies
lower bound ≤ estimate ≤ upper bound. -/
theorem default_parameters_spec :
    get_default_model_parameters =
      [("A", (-10, 10, 3)), ("B", (0, 5, 1.5))] ∧
    get_default_model_parameters.length = 2 ∧
    (get_default_model_parameters.map Prod.snd).Forall par_triple_ok := by
  refine ⟨rfl, rfl, ?_⟩
  simp only [get_default_model_parameters, List.map, List.Forall,
    par_triple_ok, and_true]
  norm_num

/-- C5: the default data supply is exactly the three-entry mapping
`1 ↦ (4.5, 0.1)`, `2.5 ↦ (6.8, 0.1)`, `-2 ↦ (0, 0.1)`, and every entry's
uncertainty is non-negative. -/
theorem default_data_spec :
    get_default_model_data =
      [(1, (4.5, 0.1)), (2.5, (6.8, 0.1)), (-2, (0, 0.1))] ∧
    get_default_model_data.length = 3 ∧
    (get_default_model_data.map Prod.snd).Forall (fun d => 0 ≤ d.2) := by
  refine ⟨rfl, rfl, ?_⟩
  simp only [get_default_model_data, List.map, List.Forall, and_true]
  norm_num

/-- C6: the iteration index argument is unused: both `call_model` and
`get_md_var` return identical results for any two iteration indices, for
every parameter assignment and coordinate sequence. -/
theorem iteration_index_unused (i1 i2 : ℕ) (par_set : List (String × ℚ))
    (data_idx : List ℚ) :
    call_model i1 par_set data_idx = call_model i2 par_set data_idx ∧
    get_md_var i1 par_set data_idx = get_md_var i2 par_set data_idx :=
  ⟨rfl, rfl⟩

/-- C7: no local error handling: `call_model` fails exactly when the
parameter lookup of `'A'` or of `'B'` fails, so a lookup error propagates
uncaught and unclassified, and on any assignment providing both keys the
call succeeds; `get_md_var`, which performs no lookup, is total on
numeric inputs. -/
theorem call_model_error_propagation (emul_i : ℕ)
    (par_set : List (String × ℚ)) (data_idx : List ℚ) :
    (call_model emul_i par_set data_idx = none ↔
      par_set.lookup "A" = none ∨ par_set.lookup "B" = none) ∧
    get_md_var emul_i par_set data_idx =
      (ones_like data_idx).map (fun v => (1e-4 : ℚ) * v) := by
  refine ⟨?_, rfl⟩
  unfold call_model
  cases par_set.lookup "A" <;> cases par_set.lookup "B" <;> simp

/-- C8: the state-passing embeddings of `call_model` and `get_md_var`
return the environment unchanged: neither the parameter assignment, nor
the coordinate sequence, nor the adapter's own state is mutated. -/
theorem methods_pure {σ : Type} (emul_i : ℕ) (st : ExecState σ) :
    (call_model_exec emul_i st).2 = st ∧
    (get_md_var_exec emul_i st).2 = st :=
  ⟨rfl, rfl⟩

/-- C9: construction forwards its whole argument tuple unchanged to the
external base constructor and performs no other initialization: the state
produced equals the state the base constructor produces from the same
arguments. -/
theorem init_forwards {Args State : Type} (modelLink_init : Args → State)
    (args : Args) :
    lineLink_init modelLink_init args = modelLink_init args :=
  rfl

/-- C10: on the empty coordinate sequence, for every iteration index and
every parameter assignment providing numeric `'A'` and `'B'`, both
`call_model` and `get_md_var` succeed and return the empty sequence. -/
theorem empty_coordinates (emul_i : ℕ) (par_set : List (String × ℚ))
    (A B : ℚ)
    (hA : par_set.lookup "A" = some A) (hB : par_set.lookup "B" = some B) :
    call_model emul_i par_set [] = some [] ∧
    get_md_var emul_i par_set [] = [] := by
  refine ⟨?_, rfl⟩
  simp [call_model, hA, hB]

/-- Witness for C10 at `par_set = {'A': 3, 'B': 2}`. -/
theorem empty_coordinates_witness :
    call_model 5 [("A", 3), ("B", 2)] [] = some [] ∧
    get_md_var 5 [("A", 3), ("B", 2)] [] = [] :=
  empty_coordinates 5 [("A", 3), ("B", 2)] 3 2 (by rfl) (by rfl)

end LineLink
